import Mathlib

/-!
Shallow embedding of the SerrveTesting customer ordering flow.

Modules embedded:
* `StatusView`   — the order-status view (`PaymentSuccessContent`): the
  payment-status classifier `getPaymentStatusInfo`, the mount/refresh order
  load with its conditional invoice lookup, and the estimated preparation
  time computation.
* `CheckoutFlow` — the checkout component (`Checkout`): the email / waiting /
  details wizard handlers, the resend-cooldown timer tick, and the
  auth-state-change subscription effect with its cleanup.
* `Dashboards`   — the per-restaurant customer dashboard's order-to-invoice
  join (`getInvoiceForOrder`) and the global user dashboard's invoice table
  rows.

External collaborators (the backend-as-a-service) are modelled as explicit
parameters: the current session/user, the result of a magic-link dispatch,
and the row-query results are inputs of the embedded handlers, and each
handler additionally returns the list of outbound requests it dispatched, so
"exactly one request" claims are statements about those lists.
-/

namespace StatusView

/-- Icon kinds used by the order-status view header (the lucide icons that
appear in `getPaymentStatusInfo`). -/
inductive Icon where
  | CheckCircle
  | XCircle
  | Loader2
  | Clock
deriving DecidableEq, Repr

/-- The display-descriptor record returned by `getPaymentStatusInfo`. -/
structure StatusInfo where
  icon : Icon
  color : String
  bgColor : String
  borderColor : String
  title : String
  message : String
  showRefresh : Bool
deriving DecidableEq, Repr

/-- The order's `payment_status` field is `string | null` in the row type;
`null` is modelled as `none`. -/
abbrev PaymentStatus := Option String

/-- `getPaymentStatusInfo` from the order-status view: a switch on the
payment status with a shared case for `PENDING`/`PROCESSING` and a default
branch for `null` (and anything else the cast lets through). -/
def getPaymentStatusInfo (paymentStatus : PaymentStatus) : StatusInfo :=
  if paymentStatus = some "SUCCESS" then
    { icon := .CheckCircle
      color := "text-green-500"
      bgColor := "bg-green-50"
      borderColor := "border-green-200"
      title := "Payment Successful!"
      message := "Your payment has been processed successfully."
      showRefresh := false }
  else if paymentStatus = some "FAILED" then
    { icon := .XCircle
      color := "text-red-500"
      bgColor := "bg-red-50"
      borderColor := "border-red-200"
      title := "Payment Failed"
      message := "Your payment could not be processed. Please try again."
      showRefresh := true }
  else if paymentStatus = some "PENDING" ∨ paymentStatus = some "PROCESSING" then
    { icon := .Loader2
      color := "text-yellow-500"
      bgColor := "bg-yellow-50"
      borderColor := "border-yellow-200"
      title := "Payment Processing"
      message := "We're confirming your payment. Please wait..."
      showRefresh := true }
  else
    { icon := .Clock
      color := "text-blue-500"
      bgColor := "bg-blue-50"
      borderColor := "border-blue-200"
      title := "Order Confirmed"
      message := "Your order has been placed successfully."
      showRefresh := false }

/-- A line item of an order as the status view reads it: `preparation_time`
may be absent on an item (`item.preparation_time || 0`), hence `Option`. -/
structure OrderItem where
  dish_name : String
  price : Nat
  quantity : Nat
  preparation_time : Option Nat
deriving DecidableEq, Repr

/-- The order row as read by the status view (fields the embedded logic
touches). -/
structure OrderRec where
  id : String
  customer_name : String
  table_number : String
  items : List OrderItem
  total_amount : Nat
  payment_status : PaymentStatus
  user_id : Option String
deriving DecidableEq, Repr

/-- The invoice record the status view holds. -/
structure Invoice where
  id : String
  invoice_number : String
  total_amount : Nat
deriving DecidableEq, Repr

/-- `estimatedTime`: `order.items.reduce((max, item) =>
Math.max(max, item.preparation_time || 0), 0)` — a left fold of `max`
starting at 0, with a missing `preparation_time` coerced to 0. -/
def estimatedTime (items : List OrderItem) : Nat :=
  items.foldl (fun mx item => max mx (item.preparation_time.getD 0)) 0

/-- The component state of the order-status view relevant to loading:
the loaded order, the fetched invoice, the loading flag and the error
message. -/
structure ViewState where
  order : Option OrderRec
  invoice : Option Invoice
  loading : Bool
  error : Option String
deriving Repr

/-- The view's state as initialised by its `useState` calls. -/
def initialViewState : ViewState :=
  { order := none, invoice := none, loading := true, error := none }

/-- `fetchInvoice`: a GET of `/api/invoice?order_id=...`; the environment
result is `some inv` when the response is ok with `success && invoice`, and
`none` otherwise (failures are swallowed). Returns the new state and the
order id that was looked up. -/
def fetchInvoice (s : ViewState) (invDb : String → Option Invoice)
    (orderId : String) : ViewState × List String :=
  match invDb orderId with
  | some inv => ({ s with invoice := some inv }, [orderId])
  | none => (s, [orderId])

/-- `fetchOrder`: loads the order row by id; on failure sets the error
message; on success stores the order and, only when its `payment_status`
is `'SUCCESS'`, awaits `fetchInvoice` on the loaded order's id. The second
component lists the invoice lookups dispatched. -/
def fetchOrder (s : ViewState) (db : String → Except String OrderRec)
    (invDb : String → Option Invoice) (orderId : String) :
    ViewState × List String :=
  match db orderId with
  | .error _ => ({ s with error := some "Failed to load order details" }, [])
  | .ok data =>
    let s' := { s with order := some data }
    if data.payment_status = some "SUCCESS" then
      fetchInvoice s' invDb data.id
    else
      (s', [])

/-- The mount effect: with no `order_id` query parameter it sets the error
and stops loading without any fetch; otherwise it runs `fetchOrder` and then
clears the loading flag. -/
def mountEffect (orderId : Option String) (db : String → Except String OrderRec)
    (invDb : String → Option Invoice) : ViewState × List String :=
  match orderId with
  | none => ({ initialViewState with error := some "Order ID not found", loading := false }, [])
  | some oid =>
    let (s, lookups) := fetchOrder initialViewState db invDb oid
    ({ s with loading := false }, lookups)

/-- The render branch test for the terminal "Order Not Found" screen:
`if (error || !order)` once loading is over. -/
def rendersNotFound (s : ViewState) : Bool :=
  !s.loading && (s.error.isSome || s.order.isNone)

end StatusView

namespace CheckoutFlow

/-- JavaScript's `String.prototype.trim`: strip whitespace from both ends.
Defined on the character list (rather than through `String.trim`) so that
it evaluates by structural recursion on concrete inputs. -/
def jsTrim (s : String) : String :=
  ⟨((s.data.dropWhile Char.isWhitespace).reverse.dropWhile Char.isWhitespace).reverse⟩

/-- The supabase user as the checkout reads it: an id and an email that may
be absent (`User.email` is `string | undefined`). -/
structure SbUser where
  id : String
  email : Option String
deriving DecidableEq, Repr

/-- The customer-info draft collected on the details step. -/
structure CustomerInfo where
  name : String
  phone : String
  tableNumber : String
  email : String
deriving DecidableEq, Repr

/-- The `AuthStep` union type of the checkout wizard. -/
inductive AuthStep where
  | email
  | waiting
  | details
  | authenticated
deriving DecidableEq, Repr

/-- The checkout component's `useState` pieces that the handlers read and
write. -/
structure CheckoutState where
  authStep : AuthStep
  email : String
  magicLinkSent : Bool
  customerInfo : CustomerInfo
  user : Option SbUser
  loading : Bool
  error : Option String
  resendCooldown : Nat
deriving DecidableEq, Repr

/-- The state as initialised by the component's `useState` defaults. -/
def initialCheckoutState : CheckoutState :=
  { authStep := .email
    email := ""
    magicLinkSent := false
    customerInfo := { name := "", phone := "", tableNumber := "", email := "" }
    user := none
    loading := false
    error := none
    resendCooldown := 0 }

/-- The outcome of a `signInWithOtp` call as the handlers see it:
`some msg` is `magicLinkError` with that message, `none` is success. -/
abbrev OtpResult := Option String

/-- The success branch of `handleEmailSubmit` after the session check: the
magic link is dispatched to `email.trim()` (`jsTrim`); on error the message is stored,
on success the step becomes `waiting` with a 60-second cooldown. The list
records the email each dispatched request was addressed to. -/
def emailOtpBranch (s : CheckoutState) (otp : OtpResult) :
    CheckoutState × List String :=
  match otp with
  | some msg => ({ s with error := some msg, loading := false }, [jsTrim s.email])
  | none =>
    ({ s with magicLinkSent := true
              authStep := .waiting
              resendCooldown := 60
              loading := false }, [jsTrim s.email])

/-- `handleEmailSubmit`: bail out on an empty trimmed email; otherwise if the
current user is signed in with exactly the submitted email, jump straight to
`details` (no dispatch); otherwise dispatch one magic link. `currentUser` is
the result of `supabase.auth.getUser()`. -/
def handleEmailSubmit (s : CheckoutState) (currentUser : Option SbUser)
    (otp : OtpResult) : CheckoutState × List String :=
  if jsTrim s.email = "" then (s, [])
  else
    let s₁ := { s with loading := true, error := none }
    match currentUser with
    | some u =>
      if u.email = some s.email then
        ({ s₁ with user := some u
                   customerInfo := { s₁.customerInfo with email := s.email }
                   authStep := .details
                   loading := false }, [])
      else emailOtpBranch s₁ otp
    | none => emailOtpBranch s₁ otp

/-- `handleResendMagicLink`: a guard returns immediately while the cooldown
is positive; otherwise one link is re-dispatched (to the raw `email` state)
and on success the cooldown is reset to 60. -/
def handleResendMagicLink (s : CheckoutState) (otp : OtpResult) :
    CheckoutState × List String :=
  if s.resendCooldown > 0 then (s, [])
  else
    let s₁ := { s with loading := true, error := none }
    match otp with
    | some msg => ({ s₁ with error := some msg, loading := false }, [s.email])
    | none => ({ s₁ with resendCooldown := 60, loading := false }, [s.email])

/-- One firing of the resend-cooldown effect's timer: scheduled only while
`resendCooldown > 0`, and then it decrements by one. -/
def cooldownTick (s : CheckoutState) : CheckoutState :=
  if s.resendCooldown > 0 then { s with resendCooldown := s.resendCooldown - 1 }
  else s

/-- `handleDetailsSubmit`: if any of the trimmed name, phone or table number
is empty, set the validation message and stop; otherwise call `onPlaceOrder`
with the customer info and the current user. The list collects the
`onPlaceOrder` invocations. -/
def handleDetailsSubmit (s : CheckoutState) :
    CheckoutState × List (CustomerInfo × Option SbUser) :=
  if jsTrim s.customerInfo.name = "" ∨ jsTrim s.customerInfo.phone = "" ∨
      jsTrim s.customerInfo.tableNumber = "" then
    ({ s with error := some "Please fill in all required fields" }, [])
  else
    (s, [(s.customerInfo, s.user)])

/-- The session provider's subscription registry, modelled as the external
collaborator behind `onAuthStateChange`: a fresh-id counter and the list of
active (not yet unsubscribed) subscription ids. -/
structure AuthProvider where
  nextId : Nat
  active : List Nat
deriving DecidableEq, Repr

/-- `supabase.auth.onAuthStateChange(...)`: registers a callback and returns
`{ data: { subscription } }`; the subscription is identified by a fresh id. -/
def onAuthStateChange (p : AuthProvider) : AuthProvider × Nat :=
  ({ nextId := p.nextId + 1, active := p.nextId :: p.active }, p.nextId)

/-- `subscription.unsubscribe()`: removes the subscription from the
provider's active set. -/
def unsubscribe (p : AuthProvider) (subId : Nat) : AuthProvider :=
  { p with active := p.active.filter (fun i => i ≠ subId) }

/-- The subscription `useEffect` body: it registers the auth-state-change
listener and returns the cleanup closure `() => subscription.unsubscribe()`
that React runs on unmount. -/
def subscriptionEffect (p : AuthProvider) :
    AuthProvider × (AuthProvider → AuthProvider) :=
  let (p', subId) := onAuthStateChange p
  (p', fun q => unsubscribe q subId)

/-- A full mount-then-unmount of the component: run the subscription effect,
then run the cleanup it returned. -/
def mountThenUnmount (p : AuthProvider) : AuthProvider :=
  let (p', cleanup) := subscriptionEffect p
  cleanup p'

end CheckoutFlow

namespace Dashboards

/-- The invoice row as the dashboards read it (fields the embedded logic and
the rendered table touch). -/
structure Invoice where
  id : String
  order_id : String
  invoice_number : String
  restaurant_name : String
  subtotal : Nat
  total_amount : Nat
  payment_status : String
deriving DecidableEq, Repr

/-- `getInvoiceForOrder` from the per-restaurant customer dashboard:
`invoices.find(invoice => invoice.order_id === orderId)`. -/
def getInvoiceForOrder (invoices : List Invoice) (orderId : String) :
    Option Invoice :=
  invoices.find? (fun invoice => invoice.order_id = orderId)

/-- One `<tr>` of the global user dashboard's invoices table: the displayed
fields plus the order reference the row is associated with. -/
structure InvoiceRow where
  invoice_number : String
  restaurant_name : String
  subtotal : Nat
  payment_status : String
  order_ref : String
deriving DecidableEq, Repr

/-- The global user dashboard renders `invoices.map(invoice => <tr .../>)`:
one row per invoice in the fetched list, with no deduplication by order. -/
def userDashboardRows (invoices : List Invoice) : List InvoiceRow :=
  invoices.map (fun invoice =>
    { invoice_number := invoice.invoice_number
      restaurant_name := invoice.restaurant_name
      subtotal := invoice.subtotal
      payment_status := invoice.payment_status
      order_ref := invoice.order_id })

/-- The number of displayed rows associated with a given order identifier. -/
def rowsForOrder (rows : List InvoiceRow) (orderId : String) : Nat :=
  (rows.filter (fun r => r.order_ref = orderId)).length

end Dashboards

open StatusView CheckoutFlow Dashboards

section FoldMaxLemmas

lemma le_foldl_max (l : List Nat) (a : Nat) : a ≤ l.foldl max a := by
  induction l generalizing a with
  | nil => exact le_refl a
  | cons x l ih => exact le_trans (le_max_left a x) (ih (max a x))

lemma mem_le_foldl_max (l : List Nat) (a : Nat) :
    ∀ x ∈ l, x ≤ l.foldl max a := by
  induction l generalizing a with
  | nil => intro x hx; cases hx
  | cons y l ih =>
    intro x hx
    rcases List.mem_cons.mp hx with rfl | hmem
    · exact le_trans (le_max_right a x) (le_foldl_max l (max a x))
    · exact ih (max a y) x hmem

lemma foldl_max_eq_init_or_mem (l : List Nat) (a : Nat) :
    l.foldl max a = a ∨ l.foldl max a ∈ l := by
  induction l generalizing a with
  | nil => exact Or.inl rfl
  | cons y l ih =>
    rcases ih (max a y) with h | h
    · rcases max_choice a y with h2 | h2
      · exact Or.inl (by rw [List.foldl_cons, h, h2])
      · refine Or.inr ?_
        rw [List.foldl_cons, h, h2]
        exact List.mem_cons_self y l
    · exact Or.inr (List.mem_cons_of_mem y h)

end FoldMaxLemmas

/-- C1: `getPaymentStatusInfo` is a closed four-way classification:
`'SUCCESS'` yields the success descriptor, `'FAILED'` the failed descriptor,
`'PENDING'` and `'PROCESSING'` the same pending/processing descriptor, and
`null` the unset descriptor; the four descriptors are pairwise distinct, and
`showRefresh` is `true` exactly for the failed and pending/processing
descriptors. -/
theorem getPaymentStatusInfo_classification :
    getPaymentStatusInfo (some "PENDING") = getPaymentStatusInfo (some "PROCESSING") ∧
    (getPaymentStatusInfo (some "SUCCESS")).title = "Payment Successful!" ∧
    (getPaymentStatusInfo (some "FAILED")).title = "Payment Failed" ∧
    (getPaymentStatusInfo (some "PENDING")).title = "Payment Processing" ∧
    (getPaymentStatusInfo (none : PaymentStatus)).title = "Order Confirmed" ∧
    List.Pairwise (· ≠ ·)
      [getPaymentStatusInfo (some "SUCCESS"), getPaymentStatusInfo (some "FAILED"),
       getPaymentStatusInfo (some "PENDING"), getPaymentStatusInfo (none : PaymentStatus)] ∧
    (getPaymentStatusInfo (some "SUCCESS")).showRefresh = false ∧
    (getPaymentStatusInfo (some "FAILED")).showRefresh = true ∧
    (getPaymentStatusInfo (some "PENDING")).showRefresh = true ∧
    (getPaymentStatusInfo (some "PROCESSING")).showRefresh = true ∧
    (getPaymentStatusInfo (none : PaymentStatus)).showRefresh = false := by
  decide

/-- C10: the estimated preparation time is the maximum of the items'
`preparation_time` values (a missing value counted as 0): it bounds every
item's value, is 0 for the empty item list, and is attained by some item
whenever the list is nonempty. -/
theorem estimatedTime_is_max (items : List OrderItem) :
    (∀ item ∈ items, item.preparation_time.getD 0 ≤ estimatedTime items) ∧
    (items = [] → estimatedTime items = 0) ∧
    (items ≠ [] →
      ∃ item ∈ items, estimatedTime items = item.preparation_time.getD 0) := by
  have hfold : estimatedTime items =
      (items.map (fun it => it.preparation_time.getD 0)).foldl max 0 := by
    rw [List.foldl_map]
    rfl
  refine ⟨?_, ?_, ?_⟩
  · intro item hmem
    rw [hfold]
    exact mem_le_foldl_max _ 0 _ (List.mem_map_of_mem _ hmem)
  · intro h
    rw [h]
    rfl
  · intro hne
    rcases foldl_max_eq_init_or_mem
        (items.map (fun it => it.preparation_time.getD 0)) 0 with h | h
    · rcases items with _ | ⟨item, rest⟩
      · exact absurd rfl hne
      · refine ⟨item, List.mem_cons_self item rest, ?_⟩
        have hle : item.preparation_time.getD 0 ≤ estimatedTime (item :: rest) := by
          rw [hfold]
          exact mem_le_foldl_max _ 0 _
            (List.mem_map_of_mem _ (List.mem_cons_self item rest))
        have hz : estimatedTime (item :: rest) = 0 := by rw [hfold]; exact h
        omega
    · rcases List.mem_map.mp h with ⟨item, hmem, heq⟩
      exact ⟨item, hmem, by rw [hfold, heq]⟩

/-- Witness for C10 at a concrete order: the maximum of the item
preparation times `5`, missing, `12` is `12`, attained by the third item. -/
theorem estimatedTime_is_max_witness :
    ∃ item ∈ [({ dish_name := "dosa", price := 10, quantity := 1,
                  preparation_time := some 5 } : OrderItem),
               { dish_name := "idli", price := 20, quantity := 2,
                  preparation_time := none },
               { dish_name := "vada", price := 5, quantity := 1,
                  preparation_time := some 12 }],
      estimatedTime
        [{ dish_name := "dosa", price := 10, quantity := 1,
            preparation_time := some 5 },
         { dish_name := "idli", price := 20, quantity := 2,
            preparation_time := none },
         { dish_name := "vada", price := 5, quantity := 1,
            preparation_time := some 12 }] = item.preparation_time.getD 0 :=
  (estimatedTime_is_max _).2.2 (by decide)

section CheckoutLemmas

/-- When the trimmed email is nonempty and no signed-in user matches the
submitted email, `handleEmailSubmit` reduces to the magic-link dispatch
branch. -/
lemma handleEmailSubmit_eq_otpBranch (s : CheckoutState)
    (currentUser : Option SbUser) (otp : OtpResult)
    (hne : jsTrim s.email ≠ "")
    (hnomatch : ∀ u, currentUser = some u → ¬u.email = some s.email) :
    handleEmailSubmit s currentUser otp =
      emailOtpBranch { s with loading := true, error := none } otp := by
  cases currentUser with
  | none => simp [handleEmailSubmit, hne]
  | some u => simp [handleEmailSubmit, hne, hnomatch u rfl]

end CheckoutLemmas

/-- C2: submitting the email step with a nonempty trimmed email and no
matching active session dispatches exactly one magic-link request (to the
trimmed email), and on success moves to the `waiting` step with the resend
cooldown set to 60. -/
theorem handleEmailSubmit_dispatches_once (s : CheckoutState)
    (currentUser : Option SbUser) (otp : OtpResult)
    (hne : jsTrim s.email ≠ "")
    (hnomatch : ∀ u, currentUser = some u → ¬u.email = some s.email) :
    (handleEmailSubmit s currentUser otp).2 = [jsTrim s.email] ∧
    (otp = none →
      (handleEmailSubmit s currentUser otp).1.authStep = .waiting ∧
      (handleEmailSubmit s currentUser otp).1.resendCooldown = 60) := by
  rw [handleEmailSubmit_eq_otpBranch s currentUser otp hne hnomatch]
  cases otp with
  | none => simp [emailOtpBranch]
  | some msg => simp [emailOtpBranch]

/-- Witness for C2: a fresh state with email `"a@b.c"` and no session
dispatches one link and, on success, waits with cooldown 60. -/
theorem handleEmailSubmit_dispatches_once_witness :
    (handleEmailSubmit { initialCheckoutState with email := "a@b.c" } none none).2 =
      ["a@b.c"] ∧
    (handleEmailSubmit { initialCheckoutState with email := "a@b.c" } none none).1.authStep =
      AuthStep.waiting ∧
    (handleEmailSubmit { initialCheckoutState with email := "a@b.c" } none none).1.resendCooldown =
      60 := by
  have h := handleEmailSubmit_dispatches_once
    { initialCheckoutState with email := "a@b.c" } none none
    (by decide) (fun u hu => by cases hu)
  exact ⟨h.1, (h.2 rfl).1, (h.2 rfl).2⟩

/-- C3: submitting the email step while the current user is already signed
in with exactly the submitted email goes straight to the `details` step,
records the email into the customer-info draft, and dispatches no
magic-link request. -/
theorem handleEmailSubmit_existing_session (s : CheckoutState) (u : SbUser)
    (otp : OtpResult) (hne : jsTrim s.email ≠ "")
    (hmatch : u.email = some s.email) :
    (handleEmailSubmit s (some u) otp).1.authStep = .details ∧
    (handleEmailSubmit s (some u) otp).1.customerInfo.email = s.email ∧
    (handleEmailSubmit s (some u) otp).1.user = some u ∧
    (handleEmailSubmit s (some u) otp).2 = [] := by
  simp [handleEmailSubmit, hne, hmatch]

/-- Witness for C3: a signed-in user with the submitted email lands on the
details step with the email recorded and no dispatch. -/
theorem handleEmailSubmit_existing_session_witness :
    (handleEmailSubmit { initialCheckoutState with email := "a@b.c" }
        (some { id := "u1", email := some "a@b.c" }) none).1.authStep =
      AuthStep.details ∧
    (handleEmailSubmit { initialCheckoutState with email := "a@b.c" }
        (some { id := "u1", email := some "a@b.c" }) none).1.customerInfo.email =
      "a@b.c" ∧
    (handleEmailSubmit { initialCheckoutState with email := "a@b.c" }
        (some { id := "u1", email := some "a@b.c" }) none).2 = [] := by
  have h := handleEmailSubmit_existing_session
    { initialCheckoutState with email := "a@b.c" }
    { id := "u1", email := some "a@b.c" } none (by decide) rfl
  exact ⟨h.1, h.2.1, h.2.2.2⟩

/-- C4: while the cooldown is positive, the resend action is a complete
no-op (state unchanged, nothing dispatched); at cooldown 0 it dispatches
exactly one magic-link request and on success resets the cooldown to 60;
and one timer tick decrements the cooldown by exactly 1 only while it is
positive. -/
theorem handleResendMagicLink_cooldown (s : CheckoutState) (otp : OtpResult) :
    (s.resendCooldown > 0 → handleResendMagicLink s otp = (s, [])) ∧
    (s.resendCooldown = 0 →
      (handleResendMagicLink s otp).2 = [s.email] ∧
      (otp = none → (handleResendMagicLink s otp).1.resendCooldown = 60)) ∧
    (s.resendCooldown > 0 →
      (cooldownTick s).resendCooldown = s.resendCooldown - 1) ∧
    (s.resendCooldown = 0 → cooldownTick s = s) := by
  refine ⟨?_, ?_, ?_, ?_⟩
  · intro h
    simp [handleResendMagicLink, h]
  · intro h
    cases otp with
    | none => simp [handleResendMagicLink, h]
    | some msg => simp [handleResendMagicLink, h]
  · intro h
    simp [cooldownTick, h]
  · intro h
    simp [cooldownTick, h]

/-- Witness for C4: with cooldown 3 the resend is a no-op; with cooldown 0
it dispatches one link and resets the cooldown to 60; a tick takes the
cooldown from 3 to 2 and leaves 0 at 0. -/
theorem handleResendMagicLink_cooldown_witness :
    handleResendMagicLink { initialCheckoutState with resendCooldown := 3 } none =
      ({ initialCheckoutState with resendCooldown := 3 }, []) ∧
    (handleResendMagicLink initialCheckoutState none).2 = [""] ∧
    (handleResendMagicLink initialCheckoutState none).1.resendCooldown = 60 ∧
    (cooldownTick { initialCheckoutState with resendCooldown := 3 }).resendCooldown = 2 ∧
    cooldownTick initialCheckoutState = initialCheckoutState := by
  refine ⟨?_, ?_, ?_, ?_, ?_⟩
  · exact (handleResendMagicLink_cooldown
      { initialCheckoutState with resendCooldown := 3 } none).1 (by decide)
  · exact ((handleResendMagicLink_cooldown initialCheckoutState none).2.1 rfl).1
  · exact (((handleResendMagicLink_cooldown initialCheckoutState none).2.1 rfl).2) rfl
  · exact (handleResendMagicLink_cooldown
      { initialCheckoutState with resendCooldown := 3 } none).2.2.1 (by decide)
  · exact (handleResendMagicLink_cooldown initialCheckoutState none).2.2.2 rfl

/-- C5: submitting the details step with any of the trimmed name, phone or
table number empty leaves the step unchanged, invokes no placement callback
and sets the validation message; with all three nonempty it invokes the
callback exactly once, with the entered customer info and the current
user-or-null. -/
theorem handleDetailsSubmit_validation (s : CheckoutState) :
    ((jsTrim s.customerInfo.name = "" ∨ jsTrim s.customerInfo.phone = "" ∨
        jsTrim s.customerInfo.tableNumber = "") →
      (handleDetailsSubmit s).1.authStep = s.authStep ∧
      (handleDetailsSubmit s).2 = [] ∧
      (handleDetailsSubmit s).1.error = some "Please fill in all required fields") ∧
    ((jsTrim s.customerInfo.name ≠ "" ∧ jsTrim s.customerInfo.phone ≠ "" ∧
        jsTrim s.customerInfo.tableNumber ≠ "") →
      (handleDetailsSubmit s).2 = [(s.customerInfo, s.user)]) := by
  constructor
  · intro h
    simp [handleDetailsSubmit, h]
  · intro h
    simp [handleDetailsSubmit, h.1, h.2.1, h.2.2]

/-- Witness for C5: an empty name blocks submission with the validation
message; a fully populated draft invokes the callback once with the draft
and the user. -/
theorem handleDetailsSubmit_validation_witness :
    (handleDetailsSubmit { initialCheckoutState with
        authStep := .details
        customerInfo := { name := "", phone := "99", tableNumber := "4",
                          email := "a@b.c" } }).2 = [] ∧
    (handleDetailsSubmit { initialCheckoutState with
        authStep := .details
        customerInfo := { name := "Asha", phone := "99", tableNumber := "4",
                          email := "a@b.c" }
        user := some { id := "u1", email := some "a@b.c" } }).2 =
      [({ name := "Asha", phone := "99", tableNumber := "4", email := "a@b.c" },
        some { id := "u1", email := some "a@b.c" })] := by
  constructor
  · exact ((handleDetailsSubmit_validation _).1 (by left; decide)).2.1
  · exact (handleDetailsSubmit_validation _).2 (by refine ⟨?_, ?_, ?_⟩ <;> decide)

/-- C6: a failure from the magic-link dispatch surfaces its message and
changes nothing else that matters: on the email-step submission the step,
cooldown and user are unchanged, and likewise for a failed resend; only the
success path moves the step, the cooldown or the user. -/
theorem magicLink_failure_preserves_state (s : CheckoutState)
    (currentUser : Option SbUser) (msg : String) :
    (jsTrim s.email ≠ "" →
      (∀ u, currentUser = some u → ¬u.email = some s.email) →
      (handleEmailSubmit s currentUser (some msg)).1.error = some msg ∧
      (handleEmailSubmit s currentUser (some msg)).1.authStep = s.authStep ∧
      (handleEmailSubmit s currentUser (some msg)).1.resendCooldown = s.resendCooldown ∧
      (handleEmailSubmit s currentUser (some msg)).1.user = s.user) ∧
    (s.resendCooldown = 0 →
      (handleResendMagicLink s (some msg)).1.error = some msg ∧
      (handleResendMagicLink s (some msg)).1.authStep = s.authStep ∧
      (handleResendMagicLink s (some msg)).1.resendCooldown = s.resendCooldown ∧
      (handleResendMagicLink s (some msg)).1.user = s.user) := by
  constructor
  · intro hne hnomatch
    rw [handleEmailSubmit_eq_otpBranch s currentUser (some msg) hne hnomatch]
    simp [emailOtpBranch]
  · intro h
    simp [handleResendMagicLink, h]

/-- Witness for C6: a failed send from the email step and a failed resend
from the waiting step both surface the provider's message and keep the
step, cooldown and user as they were. -/
theorem magicLink_failure_preserves_state_witness :
    (handleEmailSubmit { initialCheckoutState with email := "a@b.c" } none
        (some "rate limited")).1.error = some "rate limited" ∧
    (handleEmailSubmit { initialCheckoutState with email := "a@b.c" } none
        (some "rate limited")).1.authStep = AuthStep.email ∧
    (handleResendMagicLink { initialCheckoutState with
        authStep := .waiting, email := "a@b.c" }
        (some "rate limited")).1.error = some "rate limited" ∧
    (handleResendMagicLink { initialCheckoutState with
        authStep := .waiting, email := "a@b.c" }
        (some "rate limited")).1.authStep = AuthStep.waiting := by
  have h1 := (magicLink_failure_preserves_state
    { initialCheckoutState with email := "a@b.c" } none "rate limited").1
    (by decide) (fun u hu => by cases hu)
  have h2 := (magicLink_failure_preserves_state
    { initialCheckoutState with authStep := .waiting, email := "a@b.c" }
    none "rate limited").2 rfl
  exact ⟨h1.1, h1.2.1, h2.1, h2.2.1⟩

/-- C7: mounting with no `order_id` parameter, or with an id whose load
fails, lands in the terminal not-found state with no invoice lookup; an
invoice lookup happens only when the order loaded successfully and its
payment status is `'SUCCESS'`, and then it targets the loaded order's id. -/
theorem mountEffect_notFound_and_invoice_guard
    (db : String → Except String OrderRec)
    (invDb : String → Option StatusView.Invoice) :
    (rendersNotFound (mountEffect none db invDb).1 = true ∧
      (mountEffect none db invDb).2 = []) ∧
    (∀ oid e, db oid = .error e →
      rendersNotFound (mountEffect (some oid) db invDb).1 = true ∧
      (mountEffect (some oid) db invDb).2 = []) ∧
    (∀ oid, (mountEffect (some oid) db invDb).2 ≠ [] →
      ∃ data, db oid = .ok data ∧ data.payment_status = some "SUCCESS" ∧
        (mountEffect (some oid) db invDb).2 = [data.id]) := by
  refine ⟨?_, ?_, ?_⟩
  · constructor
    · rfl
    · rfl
  · intro oid e herr
    constructor
    · simp [mountEffect, fetchOrder, herr, rendersNotFound, initialViewState]
    · simp [mountEffect, fetchOrder, herr]
  · intro oid hne
    rcases hdb : db oid with e | data
    · exact absurd (by simp [mountEffect, fetchOrder, hdb]) hne
    · rcases hps : decide (data.payment_status = some "SUCCESS") with _ | _
      · have hps' : ¬data.payment_status = some "SUCCESS" := of_decide_eq_false hps
        exact absurd (by simp [mountEffect, fetchOrder, hdb, hps']) hne
      · have hps' : data.payment_status = some "SUCCESS" := of_decide_eq_true hps
        refine ⟨data, rfl, hps', ?_⟩
        rcases hinv : invDb data.id with _ | inv <;>
          simp [mountEffect, fetchOrder, fetchInvoice, hdb, hps', hinv]

/-- Witness for C7 on a concrete one-order database: a missing id and an
unknown id render not-found with no lookup, while a successful `'SUCCESS'`
order triggers exactly the one lookup on its own id. -/
theorem mountEffect_notFound_and_invoice_guard_witness :
    rendersNotFound
      (mountEffect none
        (fun oid => if oid = "o1" then
            .ok { id := "o1", customer_name := "Asha", table_number := "4",
                  items := [], total_amount := 100,
                  payment_status := some "SUCCESS", user_id := none }
          else .error "not found")
        (fun _ => none)).1 = true ∧
    (mountEffect (some "o2")
 
            (fun oid => if oid = "o1" then
            .ok { id := "o1", customer_name := "Asha", table_number := "4",
                  items := [], total_amount := 100,
                  payment_status := some "SUCCESS", user_id := none }
          else .error "not found")
        (fun _ => none)).2 = [] ∧
    (mountEffect (some "o1")
        (fun oid => if oid = "o1" then
            .ok { id := "o1", customer_name := "Asha", table_number := "4",
                  items := [], total_amount := 100,
                  payment_status := some "SUCCESS", user_id := none }
          else .error "not found")
        (fun _ => none)).2 = ["o1"] := by
  refine ⟨?_, ?_, ?_⟩
  · exact (mountEffect_notFound_and_invoice_guard _ _).1.1
  · exact ((mountEffect_notFound_and_invoice_guard _ _).2.1 "o2" "not found"
      rfl).2
  · rfl

/-- C9: the subscription effect returns precisely the cleanup that
unsubscribes the subscription it registered, so after a mount/unmount pair
the registered callback is no longer active, and a well-formed provider is
restored exactly to its prior active set. -/
theorem subscription_released_on_unmount (p : AuthProvider) :
    (subscriptionEffect p).2 = (fun q => unsubscribe q p.nextId) ∧
    p.nextId ∉ (mountThenUnmount p).active ∧
    (p.nextId ∉ p.active → (mountThenUnmount p).active = p.active) := by
  refine ⟨rfl, ?_, ?_⟩
  · intro hmem
    have h := List.of_mem_filter hmem
    simp at h
  · intro hnotin
    show ((p.nextId :: p.active).filter (fun i => i ≠ p.nextId)) = p.active
    have h1 : ((p.nextId :: p.active).filter (fun i => i ≠ p.nextId)) =
        p.active.filter (fun i => i ≠ p.nextId) := by
      simp
    rw [h1]
    apply List.filter_eq_self.mpr
    intro a ha
    have hne : a ≠ p.nextId := fun heq => hnotin (heq ▸ ha)
    simpa using hne

/-- Witness for C9: a provider with one prior subscription (id 0) gains
subscription 1 at mount and is back to exactly `[0]` after unmount. -/
theorem subscription_released_on_unmount_witness :
    (1 ∉ (mountThenUnmount { nextId := 1, active := [0] }).active) ∧
    (mountThenUnmount { nextId := 1, active := [0] }).active = [0] := by
  refine ⟨?_, ?_⟩
  · exact (subscription_released_on_unmount { nextId := 1, active := [0] }).2.1
  · exact (subscription_released_on_unmount { nextId := 1, active := [0] }).2.2
      (by decide)

section DashboardLemmas

/-- The global dashboard renders one row per invoice, so the number of rows
associated with an order equals the number of invoices in the fetched list
whose order reference is that order. -/
lemma rowsForOrder_userDashboardRows (invoices : List Dashboards.Invoice)
    (oid : String) :
    rowsForOrder (userDashboardRows invoices) oid =
      (invoices.filter (fun inv => inv.order_id = oid)).length := by
  induction invoices with
  | nil => rfl
  | cons i l ih =>
    by_cases hc : i.order_id = oid
    · simp only [userDashboardRows, rowsForOrder, List.map_cons, List.filter_cons] at ih ⊢
      simp [hc, ih]
    · simp only [userDashboardRows, rowsForOrder, List.map_cons, List.filter_cons] at ih ⊢
      simp [hc, ih]

end DashboardLemmas

/-- C8 counterexample: it is not true that for every invoice list the global
user dashboard shows at most one row per order identifier — a fetched list
holding two invoices with the same `order_id` renders two rows for that
order. -/
theorem userDashboard_duplicate_order_rows :
    ¬ (∀ (invoices : List Dashboards.Invoice) (oid : String),
        rowsForOrder (userDashboardRows invoices) oid ≤ 1) :=
  fun h =>
    absurd
      (h [{ id := "i1", order_id := "o1", invoice_number := "INV-1",
            restaurant_name := "R", subtotal := 100, total_amount := 100,
            payment_status := "paid" },
          { id := "i2", order_id := "o1", invoice_number := "INV-2",
            restaurant_name := "R", subtotal := 100, total_amount := 100,
            payment_status := "paid" }] "o1")
      (by decide)

/-- C8 (amended): the per-restaurant dashboard joins each order to at most
one invoice — the first list entry whose order reference equals the order's
id — and the global dashboard renders exactly one row per fetched invoice,
so it shows at most one row per order identifier exactly when the fetched
list itself contains at most one invoice for that order. -/
theorem dashboards_at_most_one_invoice (invoices : List Dashboards.Invoice) :
    (∀ oid inv, getInvoiceForOrder invoices oid = some inv →
      inv.order_id = oid) ∧
    (∀ oid, rowsForOrder (userDashboardRows invoices) oid =
      (invoices.filter (fun inv => inv.order_id = oid)).length) ∧
    (∀ oid, (invoices.filter (fun inv => inv.order_id = oid)).length ≤ 1 →
      rowsForOrder (userDashboardRows invoices) oid ≤ 1) := by
  refine ⟨?_, ?_, ?_⟩
  · intro oid inv h
    have hp := List.find?_some h
    simpa using hp
  · intro oid
    exact rowsForOrder_userDashboardRows invoices oid
  · intro oid hle
    rw [rowsForOrder_userDashboardRows invoices oid]
    exact hle

/-- Witness for C8 (amended): on a fetched list with one invoice per order,
the global dashboard shows at most one row for order `"o1"`, and the
per-restaurant join for `"o1"` returns an invoice whose order reference is
`"o1"`. -/
theorem dashboards_at_most_one_invoice_witness :
    rowsForOrder
      (userDashboardRows
        [{ id := "i1", order_id := "o1", invoice_number := "INV-1",
            restaurant_name := "R", subtotal := 100, total_amount := 100,
            payment_status := "paid" },
          { id := "i2", order_id := "o2", invoice_number := "INV-2",
            restaurant_name := "R", subtotal := 50, total_amount := 50,
            payment_status := "paid" }]) "o1" ≤ 1 ∧
    ({ id := "i1", order_id := "o1", invoice_number := "INV-1",
        restaurant_name := "R", subtotal := 100, total_amount := 100,
        payment_status := "paid" } : Dashboards.Invoice).order_id = "o1" := by
  constructor
  · exact (dashboards_at_most_one_invoice _).2.2 "o1" (by decide)
  · exact (dashboards_at_most_one_invoice
      [{ id := "i1", order_id := "o1", invoice_number := "INV-1",
          restaurant_name := "R", subtotal := 100, total_amount := 100,
          payment_status := "paid" }]).1 "o1" _ rfl
